import Mathlib

/-!
Verification development for the teloxide_tests mock Telegram server.

The definitions below are a shallow embedding of the repository's code:
the route handlers `send_audio`, `send_document`, `send_animation`
(src/teloxide_tests/src/server/routes/*.rs) and the dispatch / dialogue-state
helpers of `MockBot` (src/teloxide_tests/src/mock_bot.rs).  The Entity Store
(`state.rs`) is not part of the provided sources; its operations are modelled
from the specification, as marked on each definition.

Machine integers are modelled as `Int`/`Nat`; the one place where the source
performs a truncating cast (`as u32` on the payload length) is embedded as
`% 2 ^ 32`.  Randomly generated file ids and the multipart parsing layer are
passed in as explicit arguments (oracles) of the route functions.
-/

namespace TeloxideTests

/-- Media kind tag of the embedded upload routes. -/
inductive MediaKind where
  | audio
  | document
  | animation
deriving DecidableEq

/-- Reply markup as the routes distinguish it: only the inline-keyboard
variant is copied onto the message, every other variant is dropped. -/
inductive ReplyMarkupModel where
  | inlineKeyboard (rows : List (List String))
  | other
deriving DecidableEq

/-- The one field of teloxide's `ReplyParameters` that the handlers read. -/
structure ReplyParametersModel where
  message_id : Int
deriving DecidableEq

/-- Common message fields set by the embedded routes.  Fields a given route
does not touch keep the zero/none builder defaults of the mock dataset. -/
structure MessageCore where
  id : Int
  chat_id : Int
  from_user : Option Int
  kind : MediaKind
  file_id : String
  file_unique_id : String
  file_name : Option String
  file_size : Nat
  mime_type : Option String
  duration : Nat
  width : Nat
  height : Nat
  caption : Option String
  caption_entities : List String
  performer : Option String
  title : Option String
  has_protected_content : Bool
  has_media_spoiler : Bool
  show_caption_above_media : Bool
  effect_id : Option String
  business_connection_id : Option String
  reply_markup : Option (List (List String))
deriving DecidableEq

/-- A message: its fields plus an optional owned copy of the message it
replies to (Rust `reply_to_message : Option<Box<Message>>`). -/
inductive MessageModel where
  | mk (core : MessageCore) (reply_to_message : Option MessageModel)

/-- Field accessor for the message core. -/
def MessageModel.core : MessageModel → MessageCore
  | .mk c _ => c

/-- Field accessor for the reply target copy. -/
def MessageModel.reply_to_message : MessageModel → Option MessageModel
  | .mk _ r => r

/-- Replace the id of a message, keeping everything else. -/
def MessageModel.withId (m : MessageModel) (i : Int) : MessageModel :=
  .mk { m.core with id := i } m.reply_to_message

/-- One slot of the message store: the message plus its tombstone flag. -/
structure StoredEntry where
  msg : MessageModel
  tombstoned : Bool

/-- Modelled from the spec: message IDs start "at a fixed base"; after
`reset()`, `max_message_id()` returns this base. -/
def fixedBaseId : Int := 0

/-- Modelled from the spec: the message table of the Entity Store
(`state.rs` is not under the provided sources). -/
structure Messages where
  entries : List StoredEntry

/-- The empty message table. -/
def Messages.empty : Messages := ⟨[]⟩

/-- Modelled from the spec: `max_message_id()` is the maximum id present in
the store (tombstoned entries included, since tombstoning is logical), or the
fixed base when the store is empty. -/
def Messages.max_message_id (m : Messages) : Int :=
  m.entries.foldl (fun acc e => max acc e.msg.core.id) fixedBaseId

/-- Modelled from the spec: `add_message(draft)` assigns the next ID
(`max existing ID + 1`), stores it, and returns the stored copy. -/
def Messages.add_message (m : Messages) (draft : MessageModel) :
    MessageModel × Messages :=
  (draft.withId (m.max_message_id + 1),
    ⟨m.entries ++ [⟨draft.withId (m.max_message_id + 1), false⟩]⟩)

/-- Modelled from the spec: `get_message(id)` resolves a non-tombstoned
message; tombstoned or unknown IDs return absent. -/
def Messages.get_message (m : Messages) (i : Int) : Option MessageModel :=
  (m.entries.find? (fun e => e.msg.core.id == i && !e.tombstoned)).map
    (fun e => e.msg)

/-- Modelled from the spec: `tombstone_message(id)` logically deletes the
entry; the id and message stay in the table. -/
def Messages.tombstone_message (m : Messages) (i : Int) : Messages :=
  ⟨m.entries.map (fun e =>
    if e.msg.core.id == i then ⟨e.msg, true⟩ else e)⟩

/-- A synthesized file record, as pushed by the routes onto `lock.files`. -/
structure FileRecord where
  file_id : String
  file_unique_id : String
  file_size : Nat
  path : String
deriving DecidableEq

/-- JSON error envelope shape of the RPC surface. -/
structure ErrorEnvelope where
  ok : Bool
  error_code : Int
  description : String
deriving DecidableEq

/-- Modelled from the spec: the error envelope produced by the
`check_if_message_exists!` macro (routes/mod.rs is not under the provided
sources); a "message not found"-shaped RPC error. -/
def messageNotFoundError : ErrorEnvelope :=
  { ok := false, error_code := 400, description := "Bad Request: message not found" }

/-- Bot identity: the routes only read `me.user` to stamp the sender. -/
structure MeModel where
  user : Int
deriving DecidableEq

/-- Request body of send_audio (field-for-field from `SendMessageAudioBody`);
`file_data` holds the bytes of the multipart payload string. -/
structure SendMessageAudioBody where
  chat_id : Int
  message_thread_id : Option Int
  file_name : String
  file_data : List Nat
  duration : Option Nat
  caption : Option String
  parse_mode : Option String
  caption_entities : Option (List String)
  performer : Option String
  title : Option String
  disable_notification : Option Bool
  protect_content : Option Bool
  message_effect_id : Option String
  reply_parameters : Option ReplyParametersModel
  reply_markup : Option ReplyMarkupModel
  business_connection_id : Option String

/-- Request body of send_document, from `SendMessageDocumentBody`. -/
structure SendMessageDocumentBody where
  chat_id : Int
  file_name : String
  file_data : List Nat
  caption : Option String
  message_thread_id : Option Int
  parse_mode : Option String
  caption_entities : Option (List String)
  disable_content_type_detection : Option Bool
  disable_notification : Option Bool
  protect_content : Option Bool
  message_effect_id : Option String
  reply_markup : Option ReplyMarkupModel
  reply_parameters : Option ReplyParametersModel
  business_connection_id : Option String

/-- Request body of send_animation, from `SendMessageAnimationBody`. -/
structure SendMessageAnimationBody where
  chat_id : Int
  file_name : String
  file_data : List Nat
  duration : Option Nat
  width : Option Nat
  height : Option Nat
  caption : Option String
  message_thread_id : Option Int
  parse_mode : Option String
  caption_entities : Option (List String)
  show_caption_above_media : Option Bool
  has_spoiler : Option Bool
  disable_notification : Option Bool
  protect_content : Option Bool
  message_effect_id : Option String
  reply_markup : Option ReplyMarkupModel
  reply_parameters : Option ReplyParametersModel
  business_connection_id : Option String

/-- The per-kind Response Log buckets touched by the embedded routes. -/
structure Responses where
  sent_messages : List MessageModel
  sent_messages_audio : List (MessageModel × SendMessageAudioBody)
  sent_messages_document : List (MessageModel × SendMessageDocumentBody)
  sent_messages_animation : List (MessageModel × SendMessageAnimationBody)

/-- The empty Response Log. -/
def Responses.empty : Responses := ⟨[], [], [], []⟩

/-- The shared server state: message table, file table, Response Log. -/
structure State where
  messages : Messages
  files : List FileRecord
  responses : Responses

/-- The initial state. -/
def State.empty : State :=
  { messages := Messages.empty, files := [], responses := Responses.empty }

/-- Modelled from the spec: `reset()` clears all chats/messages/files/log
entries (called by `dispatch` before any traffic flows). -/
def State.reset (_ : State) : State := State.empty

/-- Split a character list at every occurrence of a separator (the
character-level counterpart of string splitting, used because the path
functions must be kernel-evaluable). -/
def splitOnChar (sep : Char) : List Char → List (List Char)
  | [] => [[]]
  | c :: rest =>
    match splitOnChar sep rest with
    | [] => if c == sep then [[], []] else [[c]]
    | r :: rs => if c == sep then [] :: r :: rs else (c :: r) :: rs

/-- Fragment of the mime_guess crate's extension table, restricted to the
extensions exercised in this development. -/
def mimeOfExtension : List Char → Option String
  | ['j', 'p', 'g'] => some "image/jpeg"
  | ['j', 'p', 'e', 'g'] => some "image/jpeg"
  | ['p', 'n', 'g'] => some "image/png"
  | ['g', 'i', 'f'] => some "image/gif"
  | ['m', 'p', '3'] => some "audio/mpeg"
  | ['o', 'g', 'g'] => some "audio/ogg"
  | ['m', 'p', '4'] => some "video/mp4"
  | ['p', 'd', 'f'] => some "application/pdf"
  | ['t', 'x', 't'] => some "text/plain"
  | _ => none

/-- Final path component (Rust `Path::file_name` for the plain relative
names the routes receive). -/
def fileNameComponent (path : String) : List Char :=
  (splitOnChar '/' path.data).getLastD []

/-- Extension per Rust `Path::extension`: the portion of the file name after
the final dot; absent when there is no dot or only a leading one. -/
def pathExtension (path : String) : Option (List Char) :=
  match splitOnChar '.' (fileNameComponent path) with
  | [] => none
  | [_] => none
  | [] :: [_] => none
  | parts => some (parts.getLastD [])

/-- Embedding of `mime_guess::from_path(path).first()`: a case-insensitive
lookup of the path's extension. -/
def mimeGuessFirst (path : String) : Option String :=
  (pathExtension path).bind (fun e => mimeOfExtension (e.map Char.toLower))

/-- Shallow embedding of the send_audio route handler.  The random
`file_id`/`file_unique_id` strings are passed in as oracle arguments. -/
def send_audio (me : MeModel) (file_id file_unique_id : String)
    (body : SendMessageAudioBody) (st : State) :
    Except ErrorEnvelope (MessageModel × State) :=
  let core : MessageCore :=
    { id := 0
      chat_id := body.chat_id
      from_user := some me.user
      kind := .audio
      file_id := file_id
      file_unique_id := file_unique_id
      file_name := some body.file_name
      file_size := body.file_data.length % 2 ^ 32
      mime_type := some "audio/mp3"
      duration := body.duration.getD 0
      width := 0
      height := 0
      caption := body.caption
      caption_entities := body.caption_entities.getD []
      performer := body.performer
      title := body.title
      has_protected_content := body.protect_content.getD false
      has_media_spoiler := false
      show_caption_above_media := false
      effect_id := body.message_effect_id
      business_connection_id := body.business_connection_id
      reply_markup :=
        match body.reply_markup with
        | some (.inlineKeyboard rows) => some rows
        | _ => none }
  let finish : Option MessageModel → MessageModel × State := fun reply_to =>
    let stored := (st.messages.add_message (.mk core reply_to)).1
    let messages := (st.messages.add_message (.mk core reply_to)).2
    (stored,
      { messages := messages
        files := st.files ++
          [{ file_id := file_id, file_unique_id := file_unique_id,
             file_size := stored.core.file_size, path := body.file_name }]
        responses :=
          { st.responses with
            sent_messages := st.responses.sent_messages ++ [stored]
            sent_messages_audio :=
              st.responses.sent_messages_audio ++ [(stored, body)] } })
  match body.reply_parameters with
  | some rp =>
    match st.messages.get_message rp.message_id with
    | none => .error messageNotFoundError
    | some r => .ok (finish (some r))
  | none => .ok (finish none)

/-- Shallow embedding of the send_document route handler. -/
def send_document (me : MeModel) (file_id file_unique_id : String)
    (body : SendMessageDocumentBody) (st : State) :
    Except ErrorEnvelope (MessageModel × State) :=
  let core : MessageCore :=
    { id := 0
      chat_id := body.chat_id
      from_user := some me.user
      kind := .document
      file_id := file_id
      file_unique_id := file_unique_id
      file_name := some body.file_name
      file_size := body.file_data.length % 2 ^ 32
      mime_type := some ((mimeGuessFirst body.file_name).getD "text/plain")
      duration := 0
      width := 0
      height := 0
      caption := body.caption
      caption_entities := body.caption_entities.getD []
      performer := none
      title := none
      has_protected_content := body.protect_content.getD false
      has_media_spoiler := false
      show_caption_above_media := false
      effect_id := body.message_effect_id
      business_connection_id := body.business_connection_id
      reply_markup :=
        match body.reply_markup with
        | some (.inlineKeyboard rows) => some rows
        | _ => none }
  let finish : Option MessageModel → MessageModel × State := fun reply_to =>
    let stored := (st.messages.add_message (.mk core reply_to)).1
    let messages := (st.messages.add_message (.mk core reply_to)).2
    (stored,
      { messages := messages
        files := st.files ++
          [{ file_id := file_id, file_unique_id := file_unique_id,
             file_size := stored.core.file_size, path := body.file_name }]
        responses :=
          { st.responses with
            sent_messages := st.responses.sent_messages ++ [stored]
            sent_messages_document :=
              st.responses.sent_messages_document ++ [(stored, body)] } })
  match body.reply_parameters with
  | some rp =>
    match st.messages.get_message rp.message_id with
    | none => .error messageNotFoundError
    | some r => .ok (finish (some r))
  | none => .ok (finish none)

/-- Shallow embedding of the send_animation route handler. -/
def send_animation (me : MeModel) (file_id file_unique_id : String)
    (body : SendMessageAnimationBody) (st : State) :
    Except ErrorEnvelope (MessageModel × State) :=
  let core : MessageCore :=
    { id := 0
      chat_id := body.chat_id
      from_user := some me.user
      kind := .animation
      file_id := file_id
      file_unique_id := file_unique_id
      file_name := some body.file_name
      file_size := body.file_data.length % 2 ^ 32
      mime_type := some ((mimeGuessFirst body.file_name).getD "image/gif")
      duration := body.duration.getD 0
      width := body.width.getD 100
      height := body.height.getD 100
      caption := body.caption
      caption_entities := body.caption_entities.getD []
      performer := none
      title := none
      has_protected_content := body.protect_content.getD false
      has_media_spoiler := body.has_spoiler.getD false
      show_caption_above_media := body.show_caption_above_media.getD false
      effect_id := body.message_effect_id
      business_connection_id := body.business_connection_id
      reply_markup :=
        match body.reply_markup with
        | some (.inlineKeyboard rows) => some rows
        | _ => none }
  let finish : Option MessageModel → MessageModel × State := fun reply_to =>
    let stored := (st.messages.add_message (.mk core reply_to)).1
    let messages := (st.messages.add_message (.mk core reply_to)).2
    (stored,
      { messages := messages
        files := st.files ++
          [{ file_id := file_id, file_unique_id := file_unique_id,
             file_size := stored.core.file_size, path := body.file_name }]
        responses :=
          { st.responses with
            sent_messages := st.responses.sent_messages ++ [stored]
            sent_messages_animation :=
              st.responses.sent_messages_animation ++ [(stored, body)] } })
  match body.reply_parameters with
  | some rp =>
    match st.messages.get_message rp.message_id with
    | none => .error messageNotFoundError
    | some r => .ok (finish (some r))
  | none => .ok (finish none)

/-- Message sent back on success, absent on an error envelope. -/
def sentResult (r : Except ErrorEnvelope (MessageModel × State)) :
    Option MessageModel :=
  r.toOption.map Prod.fst

/-- State after a route call: the new state on success; the error path
produces no state, so the server keeps the old one. -/
def routeState (st : State) (r : Except ErrorEnvelope (MessageModel × State)) :
    State :=
  match r with
  | .ok (_, s2) => s2
  | .error _ => st

/-- Modelled from the spec: State::add_message (called by insert_updates)
assigns the id through the message table and stores the mutated message. -/
def State.add_message (st : State) (m : MessageModel) : MessageModel × State :=
  ((st.messages.add_message m).1,
    { st with messages := (st.messages.add_message m).2 })

/-- Modelled from the spec: State::edit_message mutates the stored message
with a matching id in place. -/
def State.edit_message (st : State) (m : MessageModel) : State :=
  { st with
    messages := ⟨st.messages.entries.map (fun e =>
      if e.msg.core.id == m.core.id then ⟨m, e.tombstoned⟩ else e)⟩ }

/-- An inbound update as `MockBot::insert_updates` distinguishes them:
a message, an edited message, a callback query whose attached message is
regular or inaccessible, or anything else. -/
inductive UpdateModel where
  | message (m : MessageModel)
  | editedMessage (m : MessageModel)
  | callbackRegular (m : MessageModel)
  | callbackInaccessible
  | other

/-- Shallow embedding of `MockBot::insert_updates`: message updates are
stored, edited-message updates mutate in place, callback queries register
their attached message only when it is a regular one. -/
def insert_updates (st : State) (updates : List UpdateModel) : State :=
  updates.foldl (fun s u =>
    match u with
    | .message m => (s.add_message m).2
    | .editedMessage m => s.edit_message m
    | .callbackRegular m => (s.add_message m).2
    | .callbackInaccessible => s
    | .other => s) st

/-- Shallow embedding of the state effect of `MockBot::dispatch`: the shared
state is reset first, then the inbound updates are pre-registered, then the
handler pipeline (abstract here) runs against the resulting state.  Server
start/stop and env-var redirection have no counterpart in the state model. -/
def dispatchStateEffect (pipeline : State → State)
    (updates : List UpdateModel) (st : State) : State :=
  pipeline (insert_updates (State.reset st) updates)

/-- A dialogue storage as the dialogue-store boundary sees it: fallible
get/update keyed by chat id (teloxide's `Storage` trait). -/
structure StorageModel (S : Type) where
  get_dialogue : Int → Except String (Option S)
  update_dialogue : Int → S → Except String Unit

/-- Diagnostic message of the hard failure when no storage is registered
(the string logged and then raised by set_state / try_get_state). -/
def noStorageMessage : String :=
  "No storage was detected! Did you add it to bot.dependencies(deps![get_bot_storage().await]); ? Did you specify the type ::<State> ?"

/-- Embedding of `.expect("Failed to update dialogue")` on the storage
update result: a storage error escalates to a run-aborting failure. -/
def expectUpdate (r : Except String Unit) : Except String Unit :=
  match r with
  | .ok u => .ok u
  | .error _ => .error "Failed to update dialogue"

/-- Shallow embedding of `MockBot::try_get_state`.  The type-probing of the
dependency map is abstracted into the two `Option` arguments (the probe for
`InMemStorage`, then the probe for `ErasedStorage`); the chat id resolved
from the first update is passed directly.  The outer `Except` models a
run-aborting failure; storage-level read errors are swallowed into `none`
(Rust `.ok().flatten()`). -/
def try_get_state {S : Type} (in_mem_storage erased_storage : Option (StorageModel S))
    (chat_id : Int) : Except String (Option S) :=
  match in_mem_storage with
  | some storage => .ok (storage.get_dialogue chat_id).toOption.join
  | none =>
    match erased_storage with
    | some storage => .ok (storage.get_dialogue chat_id).toOption.join
    | none => .error noStorageMessage

/-- Shallow embedding of `MockBot::get_state`:
`try_get_state().await.unwrap_or(S::default())`. -/
def get_state {S : Type} [Inhabited S]
    (in_mem_storage erased_storage : Option (StorageModel S)) (chat_id : Int) :
    Except String S :=
  match try_get_state in_mem_storage erased_storage chat_id with
  | .ok o => .ok (o.getD default)
  | .error e => .error e

/-- Shallow embedding of `MockBot::set_state`, with the same abstraction of
the storage probes as `try_get_state`. -/
def set_state {S : Type} (in_mem_storage erased_storage : Option (StorageModel S))
    (chat_id : Int) (s : S) : Except String Unit :=
  match in_mem_storage with
  | some storage => expectUpdate (storage.update_dialogue chat_id s)
  | none =>
    match erased_storage with
    | some storage => expectUpdate (storage.update_dialogue chat_id s)
    | none => .error noStorageMessage

/-- Outcome of `BOT_LOCK.lock()`: a guard, or a poison error that still
carries the guard (Rust `PoisonError::into_inner` recovers it). -/
inductive LockResult (G : Type) where
  | ok (g : G)
  | poisoned (g : G)

/-- Embedding of `unwrap_or_else(PoisonError::into_inner)`: the guard is
extracted from either outcome. -/
def LockResult.recover {G : Type} : LockResult G → G
  | .ok g => g
  | .poisoned g => g

/-- Embedding of the BOT_LOCK acquisition line of `MockBot::new`:
`Some(BOT_LOCK.lock().unwrap_or_else(PoisonError::into_inner))`. -/
def mock_bot_new_lock {G : Type} (r : LockResult G) : Option G :=
  some r.recover

/-- An Entity Store operation: a message-creating call or a delete. -/
inductive StoreOp where
  | add (draft : MessageModel)
  | tombstone (i : Int)

/-- Does the operation create a message? -/
def StoreOp.isAdd : StoreOp → Bool
  | .add _ => true
  | .tombstone _ => false

/-- Run a sequence of store operations, collecting the ids returned by the
message-creating ones in order. -/
def runStoreOps : Messages → List StoreOp → Messages × List Int
  | m, [] => (m, [])
  | m, .add d :: ops =>
    ((runStoreOps (m.add_message d).2 ops).1,
      (m.add_message d).1.core.id :: (runStoreOps (m.add_message d).2 ops).2)
  | m, .tombstone i :: ops => runStoreOps (m.tombstone_message i) ops

/-- A concrete audio request naming a file whose extension has a MIME guess
different from the hard-coded audio MIME. -/
def audioBodyOgg : SendMessageAudioBody :=
  { chat_id := 5, message_thread_id := none, file_name := "song.ogg",
    file_data := [1, 2, 3], duration := none, caption := none,
    parse_mode := none, caption_entities := none, performer := none,
    title := none, disable_notification := none, protect_content := none,
    message_effect_id := none, reply_parameters := none, reply_markup := none,
    business_connection_id := none }

/-- A concrete document request. -/
def docBodyW : SendMessageDocumentBody :=
  { chat_id := 5, file_name := "notes.txt", file_data := [104, 105],
    caption := none, message_thread_id := none, parse_mode := none,
    caption_entities := none, disable_content_type_detection := none,
    disable_notification := none, protect_content := none,
    message_effect_id := none, reply_markup := none, reply_parameters := none,
    business_connection_id := none }

/-- A concrete document request whose payload is 2^32 bytes long. -/
def docBodyHuge : SendMessageDocumentBody :=
  { docBodyW with
    file_name := "big.bin",
    file_data := List.replicate (2 ^ 32) 0 }

/-- A concrete stored message with id 1. -/
def msgW : MessageModel :=
  .mk { id := 1, chat_id := 5, from_user := none, kind := .document,
        file_id := "w", file_unique_id := "wu", file_name := none,
        file_size := 0, mime_type := none, duration := 0, width := 0,
        height := 0, caption := none, caption_entities := [],
        performer := none, title := none, has_protected_content := false,
        has_media_spoiler := false, show_caption_above_media := false,
        effect_id := none, business_connection_id := none,
        reply_markup := none } none

/-- A concrete state holding exactly the message `msgW`. -/
def stW : State :=
  { messages := ⟨[⟨msgW, false⟩]⟩, files := [], responses := Responses.empty }

/-- A storage that reports no stored dialogue for any chat. -/
def natNoneStorage : StorageModel Nat :=
  { get_dialogue := fun _ => .ok none,
    update_dialogue := fun _ _ => .ok () }

/-! Helper lemmas about the message table. -/

/-- Assigning an id through `withId` sets exactly the id field. -/
theorem MessageModel.core_withId (d : MessageModel) (i : Int) :
    (d.withId i).core.id = i := by
  cases d
  rfl

/-- `withId` keeps the reply target. -/
theorem MessageModel.replyTo_withId (d : MessageModel) (i : Int) :
    (d.withId i).reply_to_message = d.reply_to_message := by
  cases d
  rfl

/-- The message returned by `add_message` carries id `max + 1`. -/
theorem add_message_fst_id (m : Messages) (d : MessageModel) :
    (m.add_message d).1.core.id = m.max_message_id + 1 :=
  MessageModel.core_withId d (m.max_message_id + 1)

/-- Adding a message raises the maximal id by exactly one. -/
theorem max_message_id_add (m : Messages) (d : MessageModel) :
    (m.add_message d).2.max_message_id = m.max_message_id + 1 := by
  have h : (m.add_message d).2.max_message_id
      = max m.max_message_id ((d.withId (m.max_message_id + 1)).core.id) := by
    unfold Messages.add_message Messages.max_message_id
    rw [List.foldl_append]
    rfl
  rw [h, MessageModel.core_withId]
  exact max_eq_right (le_of_lt (lt_add_one _))

/-- The max-fold over the entries never drops below its accumulator. -/
theorem foldl_max_acc_le (es : List StoredEntry) : ∀ acc : Int,
    acc ≤ es.foldl (fun a e => max a e.msg.core.id) acc := by
  induction es with
  | nil => intro acc; exact le_refl acc
  | cons e es ih =>
    intro acc
    exact le_trans (le_max_left acc e.msg.core.id) (ih (max acc e.msg.core.id))

/-- Every entry id is bounded by the max-fold. -/
theorem mem_le_foldl_max {es : List StoredEntry} {e : StoredEntry}
    (he : e ∈ es) : ∀ acc : Int,
    e.msg.core.id ≤ es.foldl (fun a x => max a x.msg.core.id) acc := by
  induction he with
  | head es => intro acc; exact le_trans (le_max_right acc _) (foldl_max_acc_le es _)
  | tail x hmem ih => intro acc; exact ih _

/-- Every stored id is at most `max_message_id`. -/
theorem id_le_max_message_id {m : Messages} {e : StoredEntry}
    (he : e ∈ m.entries) : e.msg.core.id ≤ m.max_message_id :=
  mem_le_foldl_max he fixedBaseId

/-- Tombstoning changes no ids, hence keeps the max-fold. -/
theorem foldl_max_map_tombstone (i : Int) (es : List StoredEntry) :
    ∀ acc : Int,
    (es.map (fun e =>
        if e.msg.core.id == i then ⟨e.msg, true⟩ else e)).foldl
        (fun a e => max a e.msg.core.id) acc
      = es.foldl (fun a e => max a e.msg.core.id) acc := by
  induction es with
  | nil => intro acc; rfl
  | cons e es ih =>
    intro acc
    rw [List.map_cons, List.foldl_cons, List.foldl_cons]
    by_cases h : e.msg.core.id = i
    · rw [if_pos (by simp [h])]
      exact ih _
    · rw [if_neg (by simp [h])]
      exact ih _

/-- Tombstoning keeps `max_message_id`. -/
theorem max_message_id_tombstone (m : Messages) (i : Int) :
    (m.tombstone_message i).max_message_id = m.max_message_id :=
  foldl_max_map_tombstone i m.entries fixedBaseId

/-- Looking up a freshly appended message (with an id above every stored
one) succeeds and returns it. -/
theorem get_message_append_fresh (m : Messages) (msg : MessageModel)
    (h : m.max_message_id < msg.core.id) :
    Messages.get_message ⟨m.entries ++ [⟨msg, false⟩]⟩ msg.core.id
      = some msg := by
  unfold Messages.get_message
  rw [List.find?_append]
  have h1 : m.entries.find?
      (fun e => e.msg.core.id == msg.core.id && !e.tombstoned) = none := by
    rw [List.find?_eq_none]
    intro e he
    have hle := id_le_max_message_id he
    simp only [Bool.and_eq_true, beq_iff_eq]
    rintro ⟨heq, -⟩
    rw [heq] at hle
    exact absurd hle (not_le.mpr h)
  rw [h1]
  simp [List.find?]

/-- Shifting a consecutive id block one step to the right. -/
theorem map_range_shift (c : Int) (n : Nat) :
    (List.range (n + 1)).map (fun (j : Nat) => c + (j : Int)) =
      c :: (List.range n).map (fun (j : Nat) => c + 1 + (j : Int)) := by
  simp only [List.range_succ_eq_map, List.map_cons, Nat.cast_zero, add_zero,
    List.map_map]
  congr 1
  apply List.map_congr_left
  intro j _
  simp only [Function.comp_apply]
  push_cast
  ring

/-- A block of consecutive ids satisfies the successor chain relation. -/
theorem chain_consecutive_map_range (c : Int) (n : Nat) :
    List.Chain' (fun a b : Int => b = a + 1)
      ((List.range n).map (fun (j : Nat) => c + (j : Int))) := by
  cases n with
  | zero => simp
  | succ k =>
    rw [List.chain'_map]
    have hr : List.range (k + 1) = List.range (Nat.succ k) := rfl
    rw [hr, List.chain'_range_succ]
    intro m _
    push_cast
    ring

/-- The ids handed out over any operation sequence form the consecutive
block starting right above the initial maximal id. -/
theorem runStoreOps_ids (ops : List StoreOp) : ∀ m : Messages,
    (runStoreOps m ops).2 =
      (List.range (ops.countP StoreOp.isAdd)).map
        (fun (j : Nat) => m.max_message_id + 1 + (j : Int)) := by
  induction ops with
  | nil => intro m; simp [runStoreOps]
  | cons op ops ih =>
    intro m
    cases op with
    | add d =>
      rw [List.countP_cons_of_pos StoreOp.isAdd ops
        (show StoreOp.isAdd (StoreOp.add d) = true from rfl)]
      simp only [runStoreOps]
      rw [ih, max_message_id_add, add_message_fst_id, map_range_shift]
    | tombstone i =>
      rw [List.countP_cons_of_neg StoreOp.isAdd ops
        (show ¬StoreOp.isAdd (StoreOp.tombstone i) = true by simp [StoreOp.isAdd])]
      simp only [runStoreOps]
      rw [ih, max_message_id_tombstone]

/-- C1: over every operation sequence on the reset Entity Store, the ids
assigned to stored messages are exactly `fixedBaseId + 1, fixedBaseId + 2,
...`: strictly increasing by exactly 1, never reused even across interleaved
tombstonings, and each `add_message` returns `max existing ID + 1`. -/
theorem claim_c1_add_message_ids (ops : List StoreOp) :
    (runStoreOps Messages.empty ops).2 =
      (List.range (ops.countP StoreOp.isAdd)).map
        (fun (j : Nat) => fixedBaseId + 1 + (j : Int))
    ∧ List.Chain' (fun a b : Int => b = a + 1)
        (runStoreOps Messages.empty ops).2
    ∧ (runStoreOps Messages.empty ops).2.Nodup
    ∧ ∀ (m : Messages) (d : MessageModel),
        (m.add_message d).1.core.id = m.max_message_id + 1 := by
  have hbase : Messages.empty.max_message_id = fixedBaseId := rfl
  have h := runStoreOps_ids ops Messages.empty
  rw [hbase] at h
  have hinj : Function.Injective
      (fun j : Nat => fixedBaseId + 1 + (j : Int)) := by
    intro a b hab
    exact Nat.cast_injective (add_left_cancel hab)
  refine ⟨h, ?_, ?_, fun m d => add_message_fst_id m d⟩
  · rw [h]
    exact chain_consecutive_map_range (fixedBaseId + 1) _
  · rw [h]
    exact (List.nodup_range _).map hinj

/-- C4: the state effect of `dispatch` factors through `reset` first, and
right after the reset nothing of a previous run is observable:
`max_message_id` is back at the fixed base, every Response Log bucket is
empty, and the message and file tables are empty. -/
theorem claim_c4_dispatch_resets (pipeline : State → State)
    (updates : List UpdateModel) (st : State) :
    dispatchStateEffect pipeline updates st
        = pipeline (insert_updates (State.reset st) updates)
    ∧ (State.reset st).messages.max_message_id = fixedBaseId
    ∧ (State.reset st).responses = Responses.empty
    ∧ (State.reset st).responses.sent_messages = []
    ∧ (State.reset st).responses.sent_messages_audio = []
    ∧ (State.reset st).responses.sent_messages_document = []
    ∧ (State.reset st).responses.sent_messages_animation = []
    ∧ (State.reset st).messages.entries = []
    ∧ (State.reset st).files = [] :=
  ⟨rfl, rfl, rfl, rfl, rfl, rfl, rfl, rfl, rfl⟩

/-- C6: constructing a mock bot on a poisoned BOT_LOCK still succeeds, the
guard is recovered out of the poison error, and the acquisition expression
yields a guard for every lock outcome. -/
theorem claim_c6_poisoned_lock_recovers {G : Type} (g : G) (r : LockResult G) :
    mock_bot_new_lock (LockResult.poisoned g) = some g
    ∧ ∃ g2, mock_bot_new_lock r = some g2 :=
  ⟨rfl, r.recover, rfl⟩

/-- C7: the dialogue-state operations probe the in-memory storage first and
the erased storage second, the first storage found wins (the in-memory one
is used even when both are present), and with neither registered both
operations fail loudly with the no-storage diagnostic. -/
theorem claim_c7_storage_probe_order {S : Type} (a b : StorageModel S)
    (ob : Option (StorageModel S)) (c : Int) (s : S) :
    try_get_state (some a) ob c = .ok (a.get_dialogue c).toOption.join
    ∧ try_get_state none (some b) c = .ok (b.get_dialogue c).toOption.join
    ∧ try_get_state (none : Option (StorageModel S)) none c
        = .error noStorageMessage
    ∧ set_state (some a) ob c s = expectUpdate (a.update_dialogue c s)
    ∧ set_state none (some b) c s = expectUpdate (b.update_dialogue c s)
    ∧ set_state (none : Option (StorageModel S)) none c s
        = .error noStorageMessage :=
  ⟨rfl, rfl, rfl, rfl, rfl, rfl⟩

/-- C10: whenever `try_get_state` finds a storage but no stored dialogue,
`get_state` returns the default value of the state type and does not fail. -/
theorem claim_c10_get_state_default {S : Type} [Inhabited S]
    (in_mem_storage erased_storage : Option (StorageModel S)) (chat_id : Int)
    (h : try_get_state in_mem_storage erased_storage chat_id = .ok none) :
    get_state in_mem_storage erased_storage chat_id = .ok (default : S) := by
  unfold get_state
  rw [h]
  rfl

/-- Witness for C10: an in-memory storage holding no dialogue. -/
theorem claim_c10_get_state_default_witness :
    get_state (some natNoneStorage) none 3 = .ok (default : Nat) :=
  claim_c10_get_state_default (some natNoneStorage) none 3 rfl

/-- C9: a send request leaving the optional media attributes unset stores a
message with the platform defaults: zero duration, the fixed placeholder 100
for width and height. -/
theorem claim_c9_media_defaults (me : MeModel) (fid fuid : String) (st : State)
    (ba : SendMessageAnimationBody) (bau : SendMessageAudioBody) :
    (sentResult (send_animation me fid fuid
        { ba with
          reply_parameters := none, duration := none, width := none,
          height := none } st)).map
        (fun m => (m.core.duration, m.core.width, m.core.height))
      = some (0, 100, 100)
    ∧ (sentResult (send_audio me fid fuid
        { bau with
          reply_parameters := none, duration := none } st)).map
        (fun m => m.core.duration) = some 0 :=
  ⟨rfl, rfl⟩

/-- C2 counterexample: the audio route stores the hard-coded MIME
`audio/mp3` even though the supplied filename `song.ogg` has the guess
`audio/ogg`, so the stored MIME is not the filename guess on every
upload-bearing method. -/
theorem claim_c2_counterexample :
    (sentResult (send_audio ⟨7⟩ "fid" "fuid" audioBodyOgg State.empty)).map
        (fun m => m.core.mime_type) = some (some "audio/mp3")
    ∧ mimeGuessFirst audioBodyOgg.file_name = some "audio/ogg"
    ∧ (some "audio/mp3" : Option String) ≠ some "audio/ogg" := by
  refine ⟨rfl, by decide, by decide⟩

/-- C2 amended: among the embedded upload routes, document and animation
store the MIME guessed from the supplied filename with the method-specific
fallbacks `text/plain` and `image/gif` used only when the guess is empty,
while audio always stores `audio/mp3` regardless of the filename. -/
theorem claim_c2_mime_guess (me : MeModel) (fid fuid : String) (st : State)
    (bd : SendMessageDocumentBody) (ba : SendMessageAnimationBody)
    (bau : SendMessageAudioBody) :
    (sentResult (send_document me fid fuid
        { bd with reply_parameters := none } st)).map
        (fun m => m.core.mime_type)
      = some (some ((mimeGuessFirst bd.file_name).getD "text/plain"))
    ∧ (sentResult (send_animation me fid fuid
        { ba with reply_parameters := none } st)).map
        (fun m => m.core.mime_type)
      = some (some ((mimeGuessFirst ba.file_name).getD "image/gif"))
    ∧ (sentResult (send_audio me fid fuid
        { bau with reply_parameters := none } st)).map
        (fun m => m.core.mime_type)
      = some (some "audio/mp3") :=
  ⟨rfl, rfl, rfl⟩

/-- Document route file size, stated for an arbitrary request without a
reply target: the byte length of the payload reduced modulo 2^32. -/
theorem send_document_file_size (me : MeModel) (fid fuid : String)
    (st : State) (bd : SendMessageDocumentBody) :
    (sentResult (send_document me fid fuid
        { bd with reply_parameters := none } st)).map
        (fun m => m.core.file_size)
      = some (bd.file_data.length % 2 ^ 32) := rfl

/-- C8 counterexample: a document payload of 2^32 bytes is stored with
file_size 0 because of the truncating 32-bit cast, so the recorded size does
not always equal the byte length of the payload. -/
theorem claim_c8_counterexample :
    (sentResult (send_document ⟨7⟩ "fid" "fuid"
        { docBodyHuge with reply_parameters := none } State.empty)).map
        (fun m => m.core.file_size) = some 0
    ∧ docBodyHuge.file_data.length = 2 ^ 32
    ∧ (0 : Nat) ≠ 2 ^ 32 := by
  have hlen : docBodyHuge.file_data.length = 2 ^ 32 := by
    have h : docBodyHuge.file_data = List.replicate (2 ^ 32) 0 := rfl
    rw [h, List.length_replicate]
  refine ⟨?_, hlen, by norm_num⟩
  rw [send_document_file_size ⟨7⟩ "fid" "fuid" State.empty docBodyHuge, hlen,
    Nat.mod_self]

/-- C8 amended: for every embedded upload route the stored file_size (and
the size in the synthesized File record) equals the byte length of the
supplied payload reduced modulo 2^32 — hence equals the byte length exactly
whenever the payload is shorter than 2^32 bytes. -/
theorem claim_c8_file_size (me : MeModel) (fid fuid : String) (st : State)
    (bd : SendMessageDocumentBody) (ba : SendMessageAnimationBody)
    (bau : SendMessageAudioBody) :
    (sentResult (send_document me fid fuid
        { bd with reply_parameters := none } st)).map
        (fun m => m.core.file_size)
      = some (bd.file_data.length % 2 ^ 32)
    ∧ (sentResult (send_animation me fid fuid
        { ba with reply_parameters := none } st)).map
        (fun m => m.core.file_size)
      = some (ba.file_data.length % 2 ^ 32)
    ∧ (sentResult (send_audio me fid fuid
        { bau with reply_parameters := none } st)).map
        (fun m => m.core.file_size)
      = some (bau.file_data.length % 2 ^ 32)
    ∧ (routeState st (send_document me fid fuid
        { bd with reply_parameters := none } st)).files.getLast?
      = some { file_id := fid, file_unique_id := fuid,
               file_size := bd.file_data.length % 2 ^ 32,
               path := bd.file_name } := by
  refine ⟨send_document_file_size me fid fuid st bd, rfl, rfl, ?_⟩
  show (st.files ++ [_]).getLast? = _
  rw [List.getLast?_concat]
  rfl

/-- C3: when a send carries reply parameters, a resolvable target id yields
a stored message carrying a copy of exactly that message as its reply
target (for both the document and the audio route), while an unknown id
fails the send with the "message not found" envelope and leaves the state
unchanged, storing nothing. -/
theorem claim_c3_reply_resolution (me : MeModel) (fid fuid : String)
    (st : State) (rp : ReplyParametersModel)
    (bd : SendMessageDocumentBody) (bau : SendMessageAudioBody)
    (hbd : bd.reply_parameters = some rp)
    (hbau : bau.reply_parameters = some rp) :
    (∀ m, st.messages.get_message rp.message_id = some m →
      ∃ r st2, send_document me fid fuid bd st = .ok (r, st2)
        ∧ r.reply_to_message = some m
        ∧ st2.messages.get_message r.core.id = some r
        ∧ st2.responses.sent_messages
            = st.responses.sent_messages ++ [r])
    ∧ (∀ m, st.messages.get_message rp.message_id = some m →
      ∃ r st2, send_audio me fid fuid bau st = .ok (r, st2)
        ∧ r.reply_to_message = some m
        ∧ st2.messages.get_message r.core.id = some r
        ∧ st2.responses.sent_messages
            = st.responses.sent_messages ++ [r])
    ∧ (st.messages.get_message rp.message_id = none →
        send_document me fid fuid bd st = .error messageNotFoundError
        ∧ send_audio me fid fuid bau st = .error messageNotFoundError
        ∧ routeState st (send_document me fid fuid bd st) = st
        ∧ routeState st (send_audio me fid fuid bau st) = st) := by
  refine ⟨?_, ?_, ?_⟩
  · intro m hm
    unfold send_document
    simp only [hbd, hm]
    refine ⟨_, _, rfl, rfl, ?_, rfl⟩
    exact get_message_append_fresh st.messages _
      (by rw [MessageModel.core_withId]; exact lt_add_one _)
  · intro m hm
    unfold send_audio
    simp only [hbau, hm]
    refine ⟨_, _, rfl, rfl, ?_, rfl⟩
    exact get_message_append_fresh st.messages _
      (by rw [MessageModel.core_withId]; exact lt_add_one _)
  · intro hnone
    unfold send_document send_audio
    simp only [hbd, hbau, hnone]
    exact ⟨trivial, trivial, rfl, rfl⟩

/-- Witness for C3: a reply to the stored id 1 resolves to the stored
message, and a reply to the unknown id 404 fails both embedded routes with
the not-found envelope, keeping the state unchanged. -/
theorem claim_c3_reply_resolution_witness :
    (∃ r st2, send_document ⟨7⟩ "f" "u"
        { docBodyW with reply_parameters := some ⟨1⟩ } stW = .ok (r, st2)
      ∧ r.reply_to_message = some msgW
      ∧ st2.messages.get_message r.core.id = some r
      ∧ st2.responses.sent_messages = stW.responses.sent_messages ++ [r])
    ∧ (send_document ⟨7⟩ "f" "u"
        { docBodyW with reply_parameters := some ⟨404⟩ } stW
          = .error messageNotFoundError
      ∧ send_audio ⟨7⟩ "f" "u"
        { audioBodyOgg with reply_parameters := some ⟨404⟩ } stW
          = .error messageNotFoundError
      ∧ routeState stW (send_document ⟨7⟩ "f" "u"
          { docBodyW with reply_parameters := some ⟨404⟩ } stW) = stW
      ∧ routeState stW (send_audio ⟨7⟩ "f" "u"
          { audioBodyOgg with reply_parameters := some ⟨404⟩ } stW) = stW) :=
  ⟨(claim_c3_reply_resolution ⟨7⟩ "f" "u" stW ⟨1⟩
      { docBodyW with reply_parameters := some ⟨1⟩ }
      { audioBodyOgg with reply_parameters := some ⟨1⟩ } rfl rfl).1 msgW rfl,
   (claim_c3_reply_resolution ⟨7⟩ "f" "u" stW ⟨404⟩
      { docBodyW with reply_parameters := some ⟨404⟩ }
      { audioBodyOgg with reply_parameters := some ⟨404⟩ } rfl rfl).2.2 rfl⟩

end TeloxideTests
